import Mathlib

/-!
# Verification of the Spart library against its specification

Shallow embedding of the three Spart utilities — the element builder
(`createElement` / `createSVGElement`), the toast notifier
(`toast` / `removeToast`) and the request wrapper
(`_fetch` / `getProblemDetail` / `asFetchResponse`) — together with
theorems settling the specification claims.

JavaScript runtime values are modelled by the inductive `Value`; live DOM
nodes by `Elem`; exceptions by `Except JSError`; the recursion of the
element builder is fuelled (fuel exhaustion models stack exhaustion, which
the builder's own catch clause would absorb).  Event handlers and callbacks
are opaque: a function value carries only the information whether invoking
it throws.
-/

namespace Spart

/-- A JavaScript exception, carrying only a diagnostic message. -/
inductive JSError where
  | typeError (msg : String)
  | domError (msg : String)
  | thrown (msg : String)
deriving Repr, DecidableEq

mutual

/-- A JavaScript runtime value.  `fn throws` is an opaque function value:
invoking it throws exactly when `throws` is true.  `elem` is a reference to
a live DOM node (used for the `element` field of an element description and
for values stored in properties). -/
inductive Value where
  | undefined
  | null
  | bool (b : Bool)
  | num (n : Int)
  | str (s : String)
  | fn (throws : Bool)
  | arr (items : List Value)
  | obj (fields : List (String × Value))
  | elem (e : Elem)

/-- A live DOM element: tag name (uppercased for HTML documents), the
`innerText` and `innerHTML` slots, the attribute map, the property map,
the appended children in order, and the attached event listeners. -/
inductive Elem where
  | mk (tagName : String) (innerText : String) (innerHTML : String)
       (attrs : List (String × String))
       (props : List (String × Value))
       (children : List Elem)
       (listeners : List (String × Value))

end

namespace Elem

def tagName : Elem → String
  | .mk t _ _ _ _ _ _ => t

def innerText : Elem → String
  | .mk _ it _ _ _ _ _ => it

def innerHTML : Elem → String
  | .mk _ _ ih _ _ _ _ => ih

def attrs : Elem → List (String × String)
  | .mk _ _ _ a _ _ _ => a

def props : Elem → List (String × Value)
  | .mk _ _ _ _ p _ _ => p

def children : Elem → List Elem
  | .mk _ _ _ _ _ c _ => c

def listeners : Elem → List (String × Value)
  | .mk _ _ _ _ _ _ l => l

end Elem

/-- Association-list update, JavaScript object/`setAttribute` style: the
first binding of the key is replaced in place, otherwise the new binding is
appended at the end (insertion order is preserved, as for JS objects and
DOM attribute maps). -/
def alistSet {α β : Type} [DecidableEq α] : List (α × β) → α → β → List (α × β)
  | [], k, v => [(k, v)]
  | p :: rest, k, v => if p.1 = k then (k, v) :: rest else p :: alistSet rest k v

/-- Association-list lookup: value of the first binding of the key. -/
def alistGet {α β : Type} [DecidableEq α] (l : List (α × β)) (k : α) : Option β :=
  (l.find? (fun p => p.1 = k)).map (·.2)

/-- Association-list deletion (JavaScript `delete obj[k]`): every binding of
the key is removed. -/
def alistRemove {α β : Type} [DecidableEq α] (l : List (α × β)) (k : α) : List (α × β) :=
  l.filter (fun p => p.1 ≠ k)

theorem alistGet_nil {α β : Type} [DecidableEq α] (k : α) :
    alistGet ([] : List (α × β)) k = none := rfl

theorem alistGet_cons {α β : Type} [DecidableEq α] (p : α × β) (rest : List (α × β)) (k : α) :
    alistGet (p :: rest) k = if p.1 = k then some p.2 else alistGet rest k := by
  by_cases h : p.1 = k <;> simp [alistGet, List.find?, h]

theorem alistGet_set {α β : Type} [DecidableEq α] (l : List (α × β)) (k : α) (v : β) :
    alistGet (alistSet l k v) k = some v := by
  induction l with
  | nil => simp [alistSet, alistGet_cons]
  | cons p rest ih =>
    by_cases h : p.1 = k
    · simp [alistSet, h, alistGet_cons]
    · simp [alistSet, h, alistGet_cons, ih]

theorem alistGet_set_ne {α β : Type} [DecidableEq α] (l : List (α × β)) (k k' : α) (v : β)
    (h : k ≠ k') : alistGet (alistSet l k v) k' = alistGet l k' := by
  induction l with
  | nil => simp [alistSet, alistGet_cons, alistGet, h]
  | cons p rest ih =>
    by_cases hp : p.1 = k
    · have hpk : ¬ p.1 = k' := fun hh => h (hp.symm.trans hh)
      simp [alistSet, hp, alistGet_cons, h, hpk]
    · simp [alistSet, hp, alistGet_cons, ih]

theorem alistGet_remove {α β : Type} [DecidableEq α] (l : List (α × β)) (k : α) :
    alistGet (alistRemove l k) k = none := by
  induction l with
  | nil => simp [alistRemove, alistGet]
  | cons p rest ih =>
    by_cases hp : p.1 = k
    · simpa [alistRemove, List.filter_cons, hp] using ih
    · simpa [alistRemove, List.filter_cons, hp, alistGet_cons] using ih

theorem alistRemove_of_get_none {α β : Type} [DecidableEq α] (l : List (α × β)) (k : α)
    (h : alistGet l k = none) : alistRemove l k = l := by
  induction l with
  | nil => rfl
  | cons p rest ih =>
    rw [alistGet_cons] at h
    by_cases hp : p.1 = k
    · simp [hp] at h
    · simp [hp] at h
      simpa [alistRemove, List.filter_cons, hp] using ih h

/-- JavaScript truthiness: `undefined`, `null`, `false`, `0` and the empty
string are falsy; every object, array, function and DOM node is truthy. -/
def jsTruthy : Value → Bool
  | .undefined => false
  | .null => false
  | .bool b => b
  | .num n => n != 0
  | .str s => s ≠ ""
  | .fn _ => true
  | .arr _ => true
  | .obj _ => true
  | .elem _ => true

def Value.isUndefined : Value → Bool
  | .undefined => true
  | _ => false

def Value.isNull : Value → Bool
  | .null => true
  | _ => false

/-- JavaScript property read `v[k]`: the first matching field of an object,
`undefined` otherwise.  (The receivers this embedding reads properties from
are always non-null — the source guards them with truthiness checks — so the
`TypeError` thrown by a read on `undefined`/`null` needs no case here; the
one such read the source can perform, `parent.tagName`, is modelled
explicitly in `determineTag`.) -/
def getProp (v : Value) (k : String) : Value :=
  match v with
  | .obj fields => (alistGet fields k).getD .undefined
  | _ => .undefined

/-- `Object.entries(v)`: the own enumerable entries — the fields of an
object, the indexed items of an array, the indexed characters of a string,
and nothing for the remaining values. -/
def jsEntries : Value → List (String × Value)
  | .obj fields => fields
  | .arr items => items.enum.map (fun p => (toString p.1, p.2))
  | .str s => s.toList.enum.map (fun p => (toString p.1, Value.str (toString p.2)))
  | _ => []

/-- Single-level `String(v)` used for nested values inside an array's
string conversion (nested arrays and deeper structure are not exercised by
the library). -/
def jsToStringShallow : Value → String
  | .undefined => "undefined"
  | .null => "null"
  | .bool b => if b then "true" else "false"
  | .num n => toString n
  | .str s => s
  | .fn _ => "function"
  | .arr _ => ""
  | .obj _ => "[object Object]"
  | .elem _ => "[object HTMLElement]"

/-- JavaScript `String(v)` coercion, as applied by `setAttribute`,
`innerText` assignment and `document.createElement`. -/
def jsToString : Value → String
  | .arr items => String.intercalate "," (items.map jsToStringShallow)
  | v => jsToStringShallow v

namespace Elem

/-- `elem.setAttribute(k, v)` (the value is already string-coerced). -/
def setAttribute : Elem → String → String → Elem
  | .mk t it ih a p c l, k, v => .mk t it ih (alistSet a k v) p c l

/-- Direct property assignment `elem[k] = v`. -/
def setProp : Elem → String → Value → Elem
  | .mk t it ih a p c l, k, v => .mk t it ih a (alistSet p k v) c l

/-- `elem.appendChild(c)` for an element child. -/
def appendChild : Elem → Elem → Elem
  | .mk t it ih a p c l, child => .mk t it ih a p (c ++ [child]) l

/-- `elem.addEventListener(name, h)` (handler stored verbatim). -/
def addListener : Elem → String → Value → Elem
  | .mk t it ih a p c l, name, h => .mk t it ih a p c (l ++ [(name, h)])

/-- `elem.innerText = s`. -/
def setInnerText : Elem → String → Elem
  | .mk t _ ih a p c l, s => .mk t s ih a p c l

/-- `elem.innerHTML = s`. -/
def setInnerHTML : Elem → String → Elem
  | .mk t it _ a p c l, s => .mk t it s a p c l

end Elem

/-- ASCII uppercasing of one character. -/
def upChar (c : Char) : Char := if c.isLower then Char.ofNat (c.toNat - 32) else c

/-- ASCII uppercasing (the tag-name normalization of an HTML document). -/
def strUpper (s : String) : String := String.mk (s.toList.map upChar)

def listIsPrefix : List Char → List Char → Bool
  | [], _ => true
  | _ :: _, [] => false
  | a :: as, b :: bs => a = b && listIsPrefix as bs

def listIsInfix (pat : List Char) : List Char → Bool
  | [] => listIsPrefix pat []
  | c :: rest => listIsPrefix pat (c :: rest) || listIsInfix pat rest

def strStartsWith (s pat : String) : Bool := listIsPrefix pat.toList s.toList

def strEndsWith (s pat : String) : Bool := listIsPrefix pat.toList.reverse s.toList.reverse

def strContainsStr (s pat : String) : Bool := listIsInfix pat.toList s.toList

/-- The structural field names of an element description that are never
applied as literal HTML attributes (source: `excluded_keys`). -/
def excluded_keys : List String :=
  ["tag", "text", "html", "props", "content", "events", "callback"]

/-- Whether a string is acceptable to `document.createElement`: a letter
followed by letters, digits or hyphens.  Models the name check whose
violation raises `InvalidCharacterError`. -/
def validTagName (s : String) : Bool :=
  match s.toList with
  | [] => false
  | c :: rest => c.isAlpha && rest.all (fun d => d.isAlpha || d.isDigit || d = '-')

/-- `document.createElement(tag)`: a fresh element with the uppercased tag
name (HTML document), or an `InvalidCharacterError` for an invalid name. -/
def documentCreateElement (tag : String) : Except JSError Elem :=
  if validTagName tag then .ok (.mk (strUpper tag) "" "" [] [] [] [])
  else .error (.domError "InvalidCharacterError")

/-- Step 3 of the builder: explicit tag wins (string-coerced); otherwise the
tag is inferred from `parent.tagName` — which throws a `TypeError` when the
parent argument is absent (`undefined`), exactly as the property read in the
source does. -/
def determineTag (info : Value) (parent : Option Elem) : Except JSError String :=
  let tagV := getProp info "tag"
  if jsTruthy tagV then .ok (jsToString tagV)
  else
    match parent with
    | none => .error (.typeError "Cannot read properties of undefined")
    | some p =>
      if p.tagName = "SELECT" then .ok "OPTION"
      else if p.tagName = "UL" || p.tagName = "OL" then .ok "LI"
      else .ok "SPAN"    -- console.warn: no element tag specified

/-- `if (info.text) elem.innerText = info.text`. -/
def applyText (e : Elem) (info : Value) : Elem :=
  let v := getProp info "text"
  if jsTruthy v then e.setInnerText (jsToString v) else e

/-- `if (info.html) elem.innerHTML = info.html`. -/
def applyHtml (e : Elem) (info : Value) : Elem :=
  let v := getProp info "html"
  if jsTruthy v then e.setInnerHTML (jsToString v) else e

/-- The attribute loop: for every entry of the description, skip
`undefined`/`null` values, skip the reserved structural keys, and apply the
rest with `setAttribute` (values string-coerced). -/
def setAttributes (e : Elem) : List (String × Value) → Elem
  | [] => e
  | (k, v) :: rest =>
    if ¬ v.isUndefined ∧ ¬ v.isNull then
      if ¬ excluded_keys.contains k then
        setAttributes (e.setAttribute k (jsToString v)) rest
      else setAttributes e rest
    else setAttributes e rest

/-- The property loop: every non-`undefined`/`null` entry of `info.props`
is assigned directly onto the element. -/
def setPropsList (e : Elem) : List (String × Value) → Elem
  | [] => e
  | (k, v) :: rest =>
    if ¬ v.isUndefined ∧ ¬ v.isNull then setPropsList (e.setProp k v) rest
    else setPropsList e rest

def applyProps (e : Elem) (info : Value) : Elem :=
  let pv := getProp info "props"
  if jsTruthy pv then setPropsList e (jsEntries pv) else e

/-- The event loop: `addEventListener` accepts function and object handlers,
ignores `null`/`undefined`, and throws a `TypeError` for other values
(WebIDL callback coercion). -/
def addListeners (e : Elem) : List (String × Value) → Except JSError Elem
  | [] => .ok e
  | (name, h) :: rest =>
    match h with
    | .fn _ => addListeners (e.addListener name h) rest
    | .obj _ => addListeners (e.addListener name h) rest
    | .arr _ => addListeners (e.addListener name h) rest
    | .elem _ => addListeners (e.addListener name h) rest
    | .undefined => addListeners e rest
    | .null => addListeners e rest
    | _ => .error (.typeError "addEventListener: invalid handler")

def applyEvents (e : Elem) (info : Value) : Except JSError Elem :=
  let ev := getProp info "events"
  if jsTruthy ev then addListeners e (jsEntries ev) else .ok e

/-- `if (info.callback) info.callback(elem, info, parent)`: invoking a
truthy non-function throws; an opaque function value throws exactly when
its flag says so. -/
def applyCallback (e : Elem) (info : Value) : Except JSError Elem :=
  let cb := getProp info "callback"
  if jsTruthy cb then
    match cb with
    | .fn true => .error (.thrown "exception in callback")
    | .fn false => .ok e
    | _ => .error (.typeError "callback is not a function")
  else .ok e

/-- The child loop (source lines 77–83): each item of `info.content` is
built recursively with the element under construction as parent; a null
child is skipped, an element child is appended, and a non-node truthy child
makes `appendChild` throw.  `recur` is the recursive occurrence of
`createElement` (one fuel step down). -/
def buildKids (recur : Value → Option Elem → Except JSError (Option Value)) :
    List Value → Elem → Except JSError Elem
  | [], e => .ok e
  | item :: rest, e =>
    match recur item (some e) with
    | .error err => .error err
    | .ok none => buildKids recur rest e
    | .ok (some (.elem c)) => buildKids recur rest (e.appendChild c)
    | .ok (some _) => .error (.typeError "appendChild: not a Node")

/-- `if (info.content) info.content.forEach(...)`: a truthy non-array
content value has no `forEach` and throws. -/
def applyContent (recur : Value → Option Elem → Except JSError (Option Value))
    (info : Value) (e : Elem) : Except JSError Elem :=
  let cv := getProp info "content"
  if jsTruthy cv then
    match cv with
    | .arr items => buildKids recur items e
    | _ => .error (.typeError "forEach is not a function")
  else .ok e

/-- The body of `createElement`'s `try` block: steps 3–10 of the builder in
source order — tag determination, node creation, text, html, attributes,
properties, children, event listeners, callback. -/
def ceBody (recur : Value → Option Elem → Except JSError (Option Value))
    (info : Value) (parent : Option Elem) : Except JSError Elem :=
  match determineTag info parent with
  | .error err => .error err
  | .ok tag =>
    match documentCreateElement tag with
    | .error err => .error err
    | .ok e0 =>
      let e1 := applyText e0 info
      let e2 := applyHtml e1 info
      let e3 := setAttributes e2 (jsEntries info)
      let e4 := applyProps e3 info
      match applyContent recur info e4 with
      | .error err => .error err
      | .ok e5 =>
        match applyEvents e5 info with
        | .error err => .error err
        | .ok e6 => applyCallback e6 info

/-- A minimal model of `DOMParser.parseFromString(s, "image/svg+xml")`
(an external browser API): a well-formed SVG string yields an `svg` root
carrying the markup, anything else yields the `parsererror` document
element. -/
def svgStringOk (s : String) : Bool :=
  strStartsWith s "<svg" && strContainsStr s "xmlns" && strEndsWith s "</svg>"

def parseFromString (s : String) : Elem :=
  if svgStringOk s then .mk "svg" "" s [] [] [] []
  else .mk "parsererror" "" "" [] [] [] []

/-- `createSVGElement`: parse the string, throw if the parser signalled an
error, and let the local catch clause turn any throw into a null result. -/
def createSVGElement (s : String) : Option Elem :=
  match (do
    let svgElem := parseFromString s
    if svgElem.tagName = "parsererror" then throw (JSError.thrown "Error parsing SVG string")
    else pure svgElem : Except JSError Elem) with
  | .ok e => some e
  | .error _ => none

/-- One unfolding of `createElement`: the falsy guard, the pre-built
element bypass, the SVG path, and the `try`/`catch` around `ceBody` (the
catch logs and returns null). -/
def ceStep (recur : Value → Option Elem → Except JSError (Option Value))
    (info : Value) (parent : Option Elem) : Except JSError (Option Value) :=
  if ¬ jsTruthy info then .ok none
  else if jsTruthy (getProp info "element") then .ok (some (getProp info "element"))
  else if jsTruthy (getProp info "svg") then
    .ok ((createSVGElement (jsToString (getProp info "svg"))).map Value.elem)
  else
    match ceBody recur info parent with
    | .ok e => .ok (some (.elem e))
    | .error _ => .ok none    -- console.error(error); return null

/-- `createElement(info, parent)`, fuelled: the fuel bounds the recursion
depth (fuel exhaustion models stack exhaustion, absorbed exactly like any
other internal throw).  The `Except` result exposes whether the call throws
to its caller. -/
def createElement : Nat → Value → Option Elem → Except JSError (Option Value)
  | 0, _, _ => .ok none
  | fuel + 1, info, parent => ceStep (createElement fuel) info parent

/-! ## The request wrapper (`src/fetch.js`) -/

/-- JavaScript property assignment `v[k] = x`: updates an object field in
place; throws a `TypeError` on `undefined`/`null`; on the remaining
primitives the assignment is silently dropped, as for a plain (non-strict)
script.  (Property expansion on arrays is not modelled; no claim touches
it.) -/
def jsSetProp (v : Value) (k : String) (x : Value) : Except JSError Value :=
  match v with
  | .obj fields => .ok (.obj (alistSet fields k x))
  | .undefined => .error (.typeError "Cannot set properties of undefined")
  | .null => .error (.typeError "Cannot set properties of null")
  | other => .ok other

/-- The real response delivered by the transport: the `ok` flag, the HTTP
status, and the result of `response.json()` — `some` parsed body or `none`
when the body is not JSON (the promise rejects). -/
structure NativeResponse where
  ok : Bool
  status : Nat
  jsonBody : Option Value

/-- The synthesized response-shaped wrapper built by `asFetchResponse`:
`ok: false`, a `status` copied from the problem, and a `json()` accessor
closing over the problem value (the body is never consumed, so every
invocation resolves to the same value). -/
structure SynthResponse where
  ok : Bool
  status : Value
  problem : Value

/-- The `json: () => Promise.resolve(problem)` accessor. -/
def SynthResponse.json (r : SynthResponse) (_ : Unit) : Value := r.problem

/-- `asFetchResponse(problem)`. -/
def asFetchResponse (problem : Value) : SynthResponse :=
  { ok := false, status := getProp problem "status", problem := problem }

/-- The fallback problem built in `getProblemDetail`'s catch clause:
`{ status, detail: "An error occurred: " + status }`. -/
def defaultProblem (status : Nat) : Value :=
  .obj [("status", .num status), ("detail", .str ("An error occurred: " ++ toString status))]

/-- The body of `getProblemDetail`'s `then` handler: patch a falsy `status`
with the HTTP status, then let a falsy `detail` fall back to `message`,
then let a still-falsy `detail` fall back to the generated string.  A throw
in any statement aborts the handler (propagating to the catch clause). -/
def problemPatch (problem : Value) (status : Nat) : Except JSError Value :=
  match (if ¬ jsTruthy (getProp problem "status") then
           jsSetProp problem "status" (.num status)
         else .ok problem) with
  | .error e => .error e
  | .ok p1 =>
    match (if ¬ jsTruthy (getProp p1 "detail") then
             jsSetProp p1 "detail" (getProp p1 "message")
           else .ok p1) with
    | .error e => .error e
    | .ok p2 =>
      if ¬ jsTruthy (getProp p2 "detail") then
        jsSetProp p2 "detail" (.str ("An error occurred: " ++ toString status))
      else .ok p2

/-- `getProblemDetail(response)`: parse the body as JSON; on success patch
the falsy `status`/`detail` fields of the parsed problem via
`problemPatch`; any parse failure or throw in the handler lands in the
catch clause, which builds the default problem.  Either way the result is
wrapped by `asFetchResponse`. -/
def getProblemDetail (response : NativeResponse) : SynthResponse :=
  let status := response.status
  match response.jsonBody with
  | none => asFetchResponse (defaultProblem status)
  | some problem =>
    match problemPatch problem status with
    | .ok p => asFetchResponse p
    | .error _ => asFetchResponse (defaultProblem status)    -- console.error(error)

/-- An opaque `FormData` instance. -/
structure FormData where
  token : Nat
deriving Repr, DecidableEq

/-- A request body: serialized JSON text or a `FormData` object. -/
inductive BodyVal where
  | text (s : String)
  | form (f : FormData)

/-- The `init` object passed to `fetch`. -/
structure RequestInit where
  method : Option String := none
  body : Option BodyVal := none
  headers : List (String × String) := []

/-- `JSON.stringify` work item: one value, an object's field list, or an
array's item list. -/
inductive SJob where
  | val (v : Value)
  | fields (fs : List (String × Value))
  | items (xs : List Value)

def jsonQuoteChar (c : Char) : String :=
  if c = '\x22' then "\\\x22" else if c = '\\' then "\\\\" else toString c

/-- JSON string quoting (quote and backslash escaped; control characters
not modelled). -/
def jsonQuote (s : String) : String :=
  "\x22" ++ String.join (s.toList.map jsonQuoteChar) ++ "\x22"

/-- The recursion of `JSON.stringify`.  For a single value the empty string
encodes "undefined" (function and `undefined` values, omitted from objects
and rendered `null` inside arrays); for field/item lists the result is the
comma-joined rendering.  The fuel bounds the depth and is chosen adequately
by `jsonStringify`. -/
def strRun : Nat → SJob → String
  | 0, _ => ""
  | _ + 1, .val .undefined => ""
  | _ + 1, .val (.fn _) => ""
  | _ + 1, .val .null => "null"
  | _ + 1, .val (.bool b) => if b then "true" else "false"
  | _ + 1, .val (.num n) => toString n
  | _ + 1, .val (.str s) => jsonQuote s
  | _ + 1, .val (.elem _) => "\x7b\x7d"
  | fuel + 1, .val (.arr xs) => "[" ++ strRun fuel (.items xs) ++ "]"
  | fuel + 1, .val (.obj fs) => "\x7b" ++ strRun fuel (.fields fs) ++ "\x7d"
  | _ + 1, .fields [] => ""
  | fuel + 1, .fields ((k, v) :: rest) =>
    let sv := strRun fuel (.val v)
    let restS := strRun fuel (.fields rest)
    if sv = "" then restS
    else if restS = "" then jsonQuote k ++ ":" ++ sv
    else jsonQuote k ++ ":" ++ sv ++ "," ++ restS
  | _ + 1, .items [] => ""
  | fuel + 1, .items (x :: rest) =>
    let sv := strRun fuel (.val x)
    let sv := if sv = "" then "null" else sv
    let restS := strRun fuel (.items rest)
    if restS = "" then sv else sv ++ "," ++ restS

mutual

/-- Nesting depth of a value, used to pick an adequate fuel for
`JSON.stringify`. -/
def valueDepth : Value → Nat
  | .arr xs => itemsDepth xs + 1
  | .obj fs => fieldsDepth fs + 1
  | _ => 1

def itemsDepth : List Value → Nat
  | [] => 0
  | x :: rest => max (valueDepth x) (itemsDepth rest)

def fieldsDepth : List (String × Value) → Nat
  | [] => 0
  | f :: rest => max (valueDepth f.2) (fieldsDepth rest)

end

/-- `JSON.stringify(v)` (payloads that serialize to `undefined` render as
the empty string; the library only serializes plain objects). -/
def jsonStringify (v : Value) : String := strRun (valueDepth v + 1) (.val v)

/-- Construction of the outgoing request's `init` object (source lines
10–22): method if given, then the JSON branch (body and content type),
then the form-data branch (body overwritten, no header touched). -/
def buildInit (method : Option String) (payload : Option Value)
    (formData : Option FormData) : RequestInit :=
  let init : RequestInit := { headers := [] }
  let init := match method with
    | some m => if m ≠ "" then { init with method := some m } else init
    | none => init
  let init := match payload with
    | some p =>
      if jsTruthy p then
        { init with body := some (.text (jsonStringify p)),
                    headers := alistSet init.headers "Content-Type" "application/json" }
      else init
    | none => init
  match formData with
  | some f => { init with body := some (.form f) }
  | none => init

/-- What the transport does with the request: deliver a response, or fail
at the network level (the promise returned by `fetch` rejects). -/
inductive TransportOutcome where
  | response (r : NativeResponse)
  | failure (msg : String)

/-- The resolution of the promise returned by `_fetch`: the untouched
native response, or a synthesized problem wrapper. -/
inductive FetchResult where
  | native (r : NativeResponse)
  | problemResp (w : SynthResponse)

/-- The connectivity problem built in `_fetch`'s catch clause. -/
def connectivityProblem : Value :=
  .obj [("status", .num 0), ("detail", .str "Please check your internet connection")]

/-- `_fetch(endpoint, method, payload, formData)`, with the transport
abstracted as a function `net` from endpoint and `init` to an outcome.
A successful-status response is returned as is; a non-success status goes
through `getProblemDetail`; a transport failure is caught, logged and
converted to the fixed connectivity problem.  The terminal catch makes the
result total: the wrapper never rejects. -/
def _fetch (endpoint : String) (method : Option String) (payload : Option Value)
    (formData : Option FormData) (net : String → RequestInit → TransportOutcome) :
    FetchResult :=
  let init := buildInit method payload formData
  match net endpoint init with
  | .response response =>
    if response.ok then .native response
    else .problemResp (getProblemDetail response)
  | .failure _ => .problemResp (asFetchResponse connectivityProblem)   -- console.error(error)

/-! ## The toast notifier -/

/-- The world state the toast utilities act on: the `toastItems` registry
(timer id to node), the mutable `style.opacity` of each toast node, the
children of the singleton container, the node removals scheduled by
`setTimeout(() => item.remove(), 300)`, the pending auto-dismiss timers
with their delays, the container-existence flag, and fresh-id counters for
timers and nodes. -/
structure ToastWorld where
  toastItems : List (Nat × Nat)
  styleOpacity : List (Nat × String)
  nodeText : List (Nat × String)
  containerChildren : List Nat
  pendingRemovals : List Nat
  autoTimers : List (Nat × Nat)
  containerExists : Bool
  nextTimerId : Nat
  nextNodeId : Nat

/-- `removeToast(id)` (source lines 129–136): no-op when the registry has
no entry; otherwise fade out the node (`opacity = '0'`), schedule its
physical removal, and delete the registry entry immediately. -/
def removeToast (id : Nat) (w : ToastWorld) : ToastWorld :=
  match alistGet w.toastItems id with
  | none => w
  | some nid =>
    { w with styleOpacity := alistSet w.styleOpacity nid "0",
             pendingRemovals := w.pendingRemovals ++ [nid],
             toastItems := alistRemove w.toastItems id }

/-- `toast(message, forLong)`: create the container if absent, build the
message node (its DOM construction is the `createElement` call of the
source; here the node is represented by a fresh node id), append it to the
container, schedule the fade-in one tick later (initial opacity left
unset), schedule auto-dismissal after 3000 or 6000 ms under a fresh timer
id, register the node under that id and return it. -/
def toast (message : String) (forLong : Bool) (w : ToastWorld) : Nat × ToastWorld :=
  let w := if w.containerExists then w else { w with containerExists := true }
  let nid := w.nextNodeId
  let id := w.nextTimerId
  (id,
   { w with
     nextNodeId := nid + 1,
     nextTimerId := id + 1,
     containerChildren := w.containerChildren ++ [nid],
     styleOpacity := alistSet w.styleOpacity nid "",
     nodeText := alistSet w.nodeText nid message,
     autoTimers := alistSet w.autoTimers id (if forLong then 6000 else 3000),
     toastItems := alistSet w.toastItems id nid })

/-! ## Auxiliary lemmas -/

theorem alistSet_of_get_none {α β : Type} [DecidableEq α] (l : List (α × β)) (k : α) (v : β)
    (h : alistGet l k = none) : alistSet l k v = l ++ [(k, v)] := by
  induction l with
  | nil => rfl
  | cons p rest ih =>
    rw [alistGet_cons] at h
    by_cases hp : p.1 = k
    · simp [hp] at h
    · simp [hp] at h
      simp [alistSet, hp, ih h]

theorem alistGet_append_right {α β : Type} [DecidableEq α] (l1 l2 : List (α × β)) (k : α)
    (h : alistGet l1 k = none) : alistGet (l1 ++ l2) k = alistGet l2 k := by
  induction l1 with
  | nil => rfl
  | cons p rest ih =>
    rw [alistGet_cons] at h
    by_cases hp : p.1 = k
    · simp [hp] at h
    · simp [hp] at h
      simpa [alistGet_cons, hp] using ih h

namespace Elem

theorem tagName_setAttribute (e : Elem) (k v : String) :
    (e.setAttribute k v).tagName = e.tagName := by cases e; rfl

theorem tagName_setProp (e : Elem) (k : String) (v : Value) :
    (e.setProp k v).tagName = e.tagName := by cases e; rfl

theorem tagName_appendChild (e c : Elem) :
    (e.appendChild c).tagName = e.tagName := by cases e; rfl

theorem tagName_addListener (e : Elem) (n : String) (h : Value) :
    (e.addListener n h).tagName = e.tagName := by cases e; rfl

theorem tagName_setInnerText (e : Elem) (s : String) :
    (e.setInnerText s).tagName = e.tagName := by cases e; rfl

theorem tagName_setInnerHTML (e : Elem) (s : String) :
    (e.setInnerHTML s).tagName = e.tagName := by cases e; rfl

theorem attrs_setProp (e : Elem) (k : String) (v : Value) :
    (e.setProp k v).attrs = e.attrs := by cases e; rfl

theorem attrs_appendChild (e c : Elem) :
    (e.appendChild c).attrs = e.attrs := by cases e; rfl

theorem attrs_addListener (e : Elem) (n : String) (h : Value) :
    (e.addListener n h).attrs = e.attrs := by cases e; rfl

theorem attrs_setInnerText (e : Elem) (s : String) :
    (e.setInnerText s).attrs = e.attrs := by cases e; rfl

theorem attrs_setInnerHTML (e : Elem) (s : String) :
    (e.setInnerHTML s).attrs = e.attrs := by cases e; rfl

theorem attrs_setAttribute (e : Elem) (k v : String) :
    (e.setAttribute k v).attrs = alistSet e.attrs k v := by cases e; rfl

theorem children_appendChild (e c : Elem) :
    (e.appendChild c).children = e.children ++ [c] := by cases e; rfl

end Elem

theorem tagName_applyText (e : Elem) (info : Value) :
    (applyText e info).tagName = e.tagName := by
  unfold applyText
  dsimp only
  split <;> simp [Elem.tagName_setInnerText]

theorem tagName_applyHtml (e : Elem) (info : Value) :
    (applyHtml e info).tagName = e.tagName := by
  unfold applyHtml
  dsimp only
  split <;> simp [Elem.tagName_setInnerHTML]

theorem attrs_applyText (e : Elem) (info : Value) :
    (applyText e info).attrs = e.attrs := by
  unfold applyText
  dsimp only
  split <;> simp [Elem.attrs_setInnerText]

theorem attrs_applyHtml (e : Elem) (info : Value) :
    (applyHtml e info).attrs = e.attrs := by
  unfold applyHtml
  dsimp only
  split <;> simp [Elem.attrs_setInnerHTML]

theorem tagName_setAttributes (entries : List (String × Value)) (e : Elem) :
    (setAttributes e entries).tagName = e.tagName := by
  induction entries generalizing e with
  | nil => rfl
  | cons kv rest ih =>
    unfold setAttributes
    split
    · split
      · rw [ih, Elem.tagName_setAttribute]
      · exact ih e
    · exact ih e

theorem tagName_setPropsList (entries : List (String × Value)) (e : Elem) :
    (setPropsList e entries).tagName = e.tagName := by
  induction entries generalizing e with
  | nil => rfl
  | cons kv rest ih =>
    unfold setPropsList
    split
    · rw [ih, Elem.tagName_setProp]
    · exact ih e

theorem attrs_setPropsList (entries : List (String × Value)) (e : Elem) :
    (setPropsList e entries).attrs = e.attrs := by
  induction entries generalizing e with
  | nil => rfl
  | cons kv rest ih =>
    unfold setPropsList
    split
    · rw [ih, Elem.attrs_setProp]
    · exact ih e

theorem tagName_applyProps (e : Elem) (info : Value) :
    (applyProps e info).tagName = e.tagName := by
  unfold applyProps
  dsimp only
  split
  · exact tagName_setPropsList _ e
  · rfl

theorem attrs_applyProps (e : Elem) (info : Value) :
    (applyProps e info).attrs = e.attrs := by
  unfold applyProps
  dsimp only
  split
  · exact attrs_setPropsList _ e
  · rfl

theorem buildKids_tagName (recur : Value → Option Elem → Except JSError (Option Value))
    (items : List Value) (e res : Elem) (h : buildKids recur items e = .ok res) :
    res.tagName = e.tagName := by
  induction items generalizing e with
  | nil =>
    simp [buildKids] at h
    rw [h]
  | cons item rest ih =>
    unfold buildKids at h
    split at h
    · exact absurd h (by simp)
    · exact ih e h
    · rw [ih _ h, Elem.tagName_appendChild]
    · exact absurd h (by simp)

theorem buildKids_attrs (recur : Value → Option Elem → Except JSError (Option Value))
    (items : List Value) (e res : Elem) (h : buildKids recur items e = .ok res) :
    res.attrs = e.attrs := by
  induction items generalizing e with
  | nil =>
    simp [buildKids] at h
    rw [h]
  | cons item rest ih =>
    unfold buildKids at h
    split at h
    · exact absurd h (by simp)
    · exact ih e h
    · rw [ih _ h, Elem.attrs_appendChild]
    · exact absurd h (by simp)

theorem applyContent_tagName (recur : Value → Option Elem → Except JSError (Option Value))
    (info : Value) (e res : Elem) (h : applyContent recur info e = .ok res) :
    res.tagName = e.tagName := by
  unfold applyContent at h
  dsimp only at h
  split at h
  · split at h
    · exact buildKids_tagName recur _ e res h
    · exact absurd h (by simp)
  · cases h; rfl

theorem applyContent_attrs (recur : Value → Option Elem → Except JSError (Option Value))
    (info : Value) (e res : Elem) (h : applyContent recur info e = .ok res) :
    res.attrs = e.attrs := by
  unfold applyContent at h
  dsimp only at h
  split at h
  · split at h
    · exact buildKids_attrs recur _ e res h
    · exact absurd h (by simp)
  · cases h; rfl

theorem addListeners_tagName (entries : List (String × Value)) (e res : Elem)
    (h : addListeners e entries = .ok res) : res.tagName = e.tagName := by
  induction entries generalizing e with
  | nil => cases h; rfl
  | cons kv rest ih =>
    unfold addListeners at h
    split at h
    all_goals first
      | (rw [ih _ h, Elem.tagName_addListener])
      | (exact ih e h)
      | (exact absurd h (by simp))

theorem addListeners_attrs (entries : List (String × Value)) (e res : Elem)
    (h : addListeners e entries = .ok res) : res.attrs = e.attrs := by
  induction entries generalizing e with
  | nil => cases h; rfl
  | cons kv rest ih =>
    unfold addListeners at h
    split at h
    all_goals first
      | (rw [ih _ h, Elem.attrs_addListener])
      | (exact ih e h)
      | (exact absurd h (by simp))

theorem applyEvents_tagName (e : Elem) (info : Value) (res : Elem)
    (h : applyEvents e info = .ok res) : res.tagName = e.tagName := by
  unfold applyEvents at h
  dsimp only at h
  split at h
  · exact addListeners_tagName _ e res h
  · cases h; rfl

theorem applyEvents_attrs (e : Elem) (info : Value) (res : Elem)
    (h : applyEvents e info = .ok res) : res.attrs = e.attrs := by
  unfold applyEvents at h
  dsimp only at h
  split at h
  · exact addListeners_attrs _ e res h
  · cases h; rfl

theorem applyCallback_eq (e : Elem) (info : Value) (res : Elem)
    (h : applyCallback e info = .ok res) : res = e := by
  unfold applyCallback at h
  dsimp only at h
  split at h
  · split at h
    all_goals first
      | (cases h; rfl)
      | (exact absurd h (by simp))
  · cases h; rfl

theorem getProp_objSet (fields : List (String × Value)) (k : String) (v : Value) :
    getProp (Value.obj (alistSet fields k v)) k = v := by
  simp [getProp, alistGet_set]

theorem getProp_objSet_ne (fields : List (String × Value)) (k k' : String) (v : Value)
    (h : k ≠ k') : getProp (Value.obj (alistSet fields k v)) k' = getProp (Value.obj fields) k' := by
  simp [getProp, alistGet_set_ne _ _ _ _ h]

/-- Every wrapper `getProblemDetail` produces goes through
`asFetchResponse`. -/
theorem getProblemDetail_shape (r : NativeResponse) :
    ∃ p, getProblemDetail r = asFetchResponse p := by
  unfold getProblemDetail
  dsimp only
  split
  · exact ⟨_, rfl⟩
  · split
    · exact ⟨_, rfl⟩
    · exact ⟨_, rfl⟩

/-! ## Claim theorems -/

/-- Claim C1: for every element description and every parent argument,
`createElement` never throws to its caller — the call always completes
normally (`Except.ok`), returning either a node value or null; every
exception raised inside the `try` body (tag determination, node creation,
child construction, event attachment, the callback) is absorbed by the
catch clause into a null result, so no partially built tree escapes. -/
theorem claim_C1_createElement_never_throws (fuel : Nat) (info : Value)
    (parent : Option Elem) : ∃ r, createElement fuel info parent = .ok r := by
  cases fuel with
  | zero => exact ⟨none, rfl⟩
  | succ n =>
    show ∃ r, ceStep (createElement n) info parent = .ok r
    unfold ceStep
    split
    · exact ⟨none, rfl⟩
    · split
      · exact ⟨_, rfl⟩
      · split
        · exact ⟨_, rfl⟩
        · cases h : ceBody (createElement n) info parent with
          | ok e => exact ⟨some (.elem e), rfl⟩
          | error err => exact ⟨none, rfl⟩

/-- Claim C3: a transport-level failure never propagates: `_fetch` resolves
to a synthesized failure wrapper with `ok: false`, status `0`, and a
`json()` accessor resolving to the problem with status `0` and the fixed
connectivity message. -/
theorem claim_C3_transport_failure (endpoint : String) (method : Option String)
    (payload : Option Value) (formData : Option FormData)
    (net : String → RequestInit → TransportOutcome) (msg : String)
    (h : net endpoint (buildInit method payload formData) = .failure msg) :
    _fetch endpoint method payload formData net =
      .problemResp (asFetchResponse connectivityProblem) ∧
    (asFetchResponse connectivityProblem).ok = false ∧
    (asFetchResponse connectivityProblem).status = .num 0 ∧
    (asFetchResponse connectivityProblem).json () =
      .obj [("status", .num 0), ("detail", .str "Please check your internet connection")] := by
  refine ⟨?_, rfl, rfl, rfl⟩
  unfold _fetch
  dsimp only
  rw [h]

/-- Witness for claim C3 at a concrete unreachable endpoint. -/
theorem claim_C3_witness :
    _fetch "https://example.org" none none none (fun _ _ => .failure "offline") =
      .problemResp (asFetchResponse connectivityProblem) ∧
    (asFetchResponse connectivityProblem).ok = false ∧
    (asFetchResponse connectivityProblem).status = .num 0 ∧
    (asFetchResponse connectivityProblem).json () =
      .obj [("status", .num 0), ("detail", .str "Please check your internet connection")] :=
  claim_C3_transport_failure "https://example.org" none none none
    (fun _ _ => .failure "offline") "offline" rfl

/-- Claim C5: a request built with a truthy JSON payload and no form data
carries the serialized payload as body and the JSON content-type header;
a request built with form data and no payload carries the form data as
body and no explicitly set header. -/
theorem claim_C5_request_body :
    (∀ (method : Option String) (payload : Value), jsTruthy payload = true →
       (buildInit method (some payload) none).body = some (.text (jsonStringify payload)) ∧
       (buildInit method (some payload) none).headers =
         [("Content-Type", "application/json")]) ∧
    (∀ (method : Option String) (f : FormData),
       (buildInit method none (some f)).body = some (.form f) ∧
       (buildInit method none (some f)).headers = []) := by
  constructor
  · intro method payload hp
    cases method with
    | none => simp [buildInit, hp, alistSet]
    | some m =>
      by_cases hm : m = "" <;> simp [buildInit, hp, hm, alistSet]
  · intro method f
    cases method with
    | none => simp [buildInit]
    | some m =>
      by_cases hm : m = "" <;> simp [buildInit, hm]

/-- Witness for claim C5 at the concrete payload `{a: 1}` and a concrete
form-data object. -/
theorem claim_C5_witness :
    (buildInit (some "POST") (some (.obj [("a", .num 1)])) none).body =
      some (.text (jsonStringify (.obj [("a", .num 1)]))) ∧
    (buildInit (some "POST") (some (.obj [("a", .num 1)])) none).headers =
      [("Content-Type", "application/json")] ∧
    (buildInit (some "POST") none (some ⟨0⟩)).body = some (.form ⟨0⟩) ∧
    (buildInit (some "POST") none (some ⟨0⟩)).headers = [] := by
  obtain ⟨h1, h2⟩ := claim_C5_request_body.1 (some "POST") (.obj [("a", .num 1)]) rfl
  obtain ⟨h3, h4⟩ := claim_C5_request_body.2 (some "POST") ⟨0⟩
  exact ⟨h1, h2, h3, h4⟩

/-- Claim C9: every synthesized failure wrapper `_fetch` resolves to has a
`json()` accessor whose every invocation yields the same problem value
(the synthesized body is never consumed), and the wrapper's `status` field
equals the problem's `status` field. -/
theorem claim_C9_synth_wrapper (endpoint : String) (method : Option String)
    (payload : Option Value) (formData : Option FormData)
    (net : String → RequestInit → TransportOutcome) (w : SynthResponse)
    (h : _fetch endpoint method payload formData net = .problemResp w) :
    (∀ u v : Unit, w.json u = w.json v) ∧ w.status = getProp (w.json ()) "status" := by
  have hshape : ∃ p, w = asFetchResponse p := by
    unfold _fetch at h
    dsimp only at h
    split at h
    · split at h
      · exact absurd h (by simp)
      · obtain ⟨p, hp⟩ := getProblemDetail_shape _
        exact ⟨p, by injection h with h2; rw [← h2, hp]⟩
    · exact ⟨connectivityProblem, by injection h with h2; rw [← h2]⟩
  obtain ⟨p, rfl⟩ := hshape
  exact ⟨fun _ _ => rfl, rfl⟩

/-- Witness for claim C9 at a concrete failing transport. -/
theorem claim_C9_witness :
    (∀ u v : Unit,
      (asFetchResponse connectivityProblem).json u =
        (asFetchResponse connectivityProblem).json v) ∧
    (asFetchResponse connectivityProblem).status =
      getProp ((asFetchResponse connectivityProblem).json ()) "status" :=
  claim_C9_synth_wrapper "https://example.org" none none none
    (fun _ _ => .failure "down") (asFetchResponse connectivityProblem) rfl

/-- Claim C10: when a truthy JSON payload and form data are both supplied,
the form-data assignment overwrites the serialized JSON body, but the
JSON content-type header set by the payload branch remains. -/
theorem claim_C10_both_bodies (method : Option String) (payload : Value)
    (f : FormData) (hp : jsTruthy payload = true) :
    (buildInit method (some payload) (some f)).body = some (.form f) ∧
    (buildInit method (some payload) (some f)).headers =
      [("Content-Type", "application/json")] := by
  cases method with
  | none => simp [buildInit, hp, alistSet]
  | some m =>
    by_cases hm : m = "" <;> simp [buildInit, hp, hm, alistSet]

/-- Witness for claim C10 at the concrete payload `{a: 1}`. -/
theorem claim_C10_witness :
    (buildInit (some "POST") (some (.obj [("a", .num 1)])) (some ⟨7⟩)).body =
      some (.form ⟨7⟩) ∧
    (buildInit (some "POST") (some (.obj [("a", .num 1)])) (some ⟨7⟩)).headers =
      [("Content-Type", "application/json")] :=
  claim_C10_both_bodies (some "POST") (.obj [("a", .num 1)]) ⟨7⟩ rfl

theorem determineTag_none (info : Value) (ht : jsTruthy (getProp info "tag") = false) :
    determineTag info none = .error (.typeError "Cannot read properties of undefined") := by
  unfold determineTag
  simp [ht]

theorem determineTag_default (info : Value) (p : Elem)
    (ht : jsTruthy (getProp info "tag") = false)
    (h1 : p.tagName ≠ "SELECT") (h2 : p.tagName ≠ "UL") (h3 : p.tagName ≠ "OL") :
    determineTag info (some p) = .ok "SPAN" := by
  unfold determineTag
  simp [ht, h1, h2, h3]

/-- A successful run of the `try` body yields a node whose tag name is the
uppercased determined tag. -/
theorem ceBody_tagName (recur : Value → Option Elem → Except JSError (Option Value))
    (info : Value) (parent : Option Elem) (e : Elem)
    (h : ceBody recur info parent = .ok e) :
    ∃ tag, determineTag info parent = .ok tag ∧ e.tagName = strUpper tag := by
  unfold ceBody at h
  split at h
  · exact absurd h (by simp)
  · rename_i tag htag
    split at h
    · exact absurd h (by simp)
    · rename_i e0 he0
      dsimp only at h
      split at h
      · exact absurd h (by simp)
      · rename_i e5 h5
        split at h
        · exact absurd h (by simp)
        · rename_i e6 h6
          refine ⟨tag, htag, ?_⟩
          have hee : e = e6 := applyCallback_eq e6 info e h
          have ht6 : e6.tagName = e5.tagName := applyEvents_tagName e5 info e6 h6
          have ht5 := applyContent_tagName recur info _ e5 h5
          have ht0 : e0.tagName = strUpper tag := by
            unfold documentCreateElement at he0
            split at he0
            · injection he0 with he0
              rw [← he0]
              rfl
            · exact absurd he0 (by simp)
          rw [hee, ht6, ht5, tagName_applyProps, tagName_setAttributes,
            tagName_applyHtml, tagName_applyText, ht0]

/-- Counterexample to claim C4 as stated: a description with no tag, no
pre-built node and no SVG markup, built with an absent parent, yields a
null result — not a warning plus a default `span` node. -/
theorem claim_C4_counterexample :
    createElement 1 (Value.obj []) none = .ok none := rfl

/-- Claim C4, amended: when tag inference is needed and the parent argument
is absent, the read of the parent's tag throws; the exception is caught and
logged and the whole call returns null, not a built node.  The
warning-plus-default-`span` path applies exactly when a parent is present
whose tag is not a selection or list container. -/
theorem claim_C4_amended :
    (∀ (fuel : Nat) (info : Value),
      jsTruthy (getProp info "element") = false →
      jsTruthy (getProp info "svg") = false →
      jsTruthy (getProp info "tag") = false →
      createElement (fuel + 1) info none = .ok none) ∧
    (∀ (fuel : Nat) (info : Value) (p : Elem) (e : Elem),
      jsTruthy (getProp info "element") = false →
      jsTruthy (getProp info "svg") = false →
      jsTruthy (getProp info "tag") = false →
      p.tagName ≠ "SELECT" → p.tagName ≠ "UL" → p.tagName ≠ "OL" →
      createElement (fuel + 1) info (some p) = .ok (some (.elem e)) →
      e.tagName = "SPAN") := by
  constructor
  · intro fuel info he hs ht
    show ceStep (createElement fuel) info none = .ok none
    unfold ceStep
    split
    · rfl
    · rw [if_neg (by rw [he]; simp), if_neg (by rw [hs]; simp)]
      have hbody : ceBody (createElement fuel) info none =
          .error (.typeError "Cannot read properties of undefined") := by
        unfold ceBody
        rw [determineTag_none info ht]
      rw [hbody]
  · intro fuel info p e he hs ht h1 h2 h3 hok
    have hok2 : ceStep (createElement fuel) info (some p) = .ok (some (.elem e)) := hok
    unfold ceStep at hok2
    split at hok2
    · exact absurd hok2 (by simp)
    · rw [if_neg (by rw [he]; simp), if_neg (by rw [hs]; simp)] at hok2
      split at hok2
      · rename_i e6 h6
        have he6 : Value.elem e6 = Value.elem e := by
          injection hok2 with hh
          injection hh
        have hee : e6 = e := by injection he6
        obtain ⟨tag, htag, hname⟩ := ceBody_tagName (createElement fuel) info (some p) e6 h6
        rw [determineTag_default info p ht h1 h2 h3] at htag
        have : tag = "SPAN" := by injection htag with hh; exact hh.symm
        rw [← hee, hname, this]
        rfl
      · exact absurd hok2 (by simp)

/-- Witness for the amended claim C4, at a concrete description without a
tag: with an absent parent the result is null; with a `DIV` parent the
built node is a `SPAN`. -/
theorem claim_C4_witness :
    createElement 1 (Value.obj [("id", .str "x")]) none = .ok none ∧
    (Elem.mk "SPAN" "" "" [("id", "x")] [] [] []).tagName = "SPAN" := by
  constructor
  · exact claim_C4_amended.1 0 (Value.obj [("id", .str "x")]) rfl rfl rfl
  · exact claim_C4_amended.2 0 (Value.obj [("id", .str "x")])
      (Elem.mk "DIV" "" "" [] [] [] []) (Elem.mk "SPAN" "" "" [("id", "x")] [] [] [])
      rfl rfl rfl (by decide) (by decide) (by decide) rfl

/-- `removeToast` is a no-op when the registry has no entry for the id. -/
theorem removeToast_of_not_registered (id : Nat) (w : ToastWorld)
    (h : alistGet w.toastItems id = none) : removeToast id w = w := by
  unfold removeToast
  rw [h]

/-- Claim C8: `remove(id)` is a no-op for an unknown id; after
`show(message)` followed by `remove` of the returned identifier the
registry no longer contains the id and the toast node's opacity is `0`
(physical removal still pending), and a second `remove` with the same id
is a no-op. -/
theorem claim_C8_remove_idempotent :
    (∀ (id : Nat) (w : ToastWorld),
      alistGet w.toastItems id = none → removeToast id w = w) ∧
    (∀ (msg : String) (forLong : Bool) (w : ToastWorld),
      alistGet (removeToast (toast msg forLong w).1 (toast msg forLong w).2).toastItems
        (toast msg forLong w).1 = none ∧
      alistGet (removeToast (toast msg forLong w).1 (toast msg forLong w).2).styleOpacity
        w.nextNodeId = some "0" ∧
      removeToast (toast msg forLong w).1
        (removeToast (toast msg forLong w).1 (toast msg forLong w).2) =
        removeToast (toast msg forLong w).1 (toast msg forLong w).2) := by
  constructor
  · exact removeToast_of_not_registered
  · intro msg forLong w
    obtain ⟨ti, so, nt, cc, pr, atm, ce, nti, nni⟩ := w
    have hrm : removeToast (toast msg forLong ⟨ti, so, nt, cc, pr, atm, ce, nti, nni⟩).1
        (toast msg forLong ⟨ti, so, nt, cc, pr, atm, ce, nti, nni⟩).2 =
        { (toast msg forLong ⟨ti, so, nt, cc, pr, atm, ce, nti, nni⟩).2 with
          styleOpacity := alistSet (alistSet so nni "") nni "0",
          pendingRemovals := pr ++ [nni],
          toastItems := alistRemove (alistSet ti nti nni) nti } := by
      cases ce <;> simp [toast, removeToast, alistGet_set]
    rw [hrm]
    refine ⟨?_, ?_, ?_⟩
    · cases ce <;> simp [toast, alistGet_remove]
    · cases ce <;> simp [toast, alistGet_set]
    · apply removeToast_of_not_registered
      cases ce <;> simp [toast, alistGet_remove]

/-- The world before any toast activity. -/
def emptyToastWorld : ToastWorld := ⟨[], [], [], [], [], [], false, 0, 0⟩

/-- Witness for claim C8 at a concrete world and message. -/
theorem claim_C8_witness :
    removeToast 5 emptyToastWorld = emptyToastWorld ∧
    alistGet (removeToast (toast "hi" false emptyToastWorld).1
        (toast "hi" false emptyToastWorld).2).toastItems
      (toast "hi" false emptyToastWorld).1 = none ∧
    alistGet (removeToast (toast "hi" false emptyToastWorld).1
        (toast "hi" false emptyToastWorld).2).styleOpacity
      emptyToastWorld.nextNodeId = some "0" ∧
    removeToast (toast "hi" false emptyToastWorld).1
      (removeToast (toast "hi" false emptyToastWorld).1
        (toast "hi" false emptyToastWorld).2) =
      removeToast (toast "hi" false emptyToastWorld).1
        (toast "hi" false emptyToastWorld).2 :=
  ⟨claim_C8_remove_idempotent.1 5 emptyToastWorld rfl,
   claim_C8_remove_idempotent.2 "hi" false emptyToastWorld⟩

/-- Effect of the attribute loop on the attribute map: under distinct entry
keys that are fresh for the element, the applied attributes are appended in
entry order. -/
theorem setAttributes_attrs (entries : List (String × Value)) (e : Elem)
    (hnd : (entries.map Prod.fst).Nodup)
    (hdisj : ∀ k ∈ entries.map Prod.fst, alistGet e.attrs k = none) :
    (setAttributes e entries).attrs = e.attrs ++ entries.filterMap (fun kv =>
      if ¬ kv.2.isUndefined = true ∧ ¬ kv.2.isNull = true ∧ ¬ excluded_keys.contains kv.1 = true
      then some (kv.1, jsToString kv.2) else none) := by
  induction entries generalizing e with
  | nil => simp [setAttributes]
  | cons kv rest ih =>
    rw [List.map_cons, List.nodup_cons] at hnd
    obtain ⟨hk, hnd⟩ := hnd
    have hke : alistGet e.attrs kv.1 = none := hdisj kv.1 (by simp)
    unfold setAttributes
    rw [List.filterMap_cons]
    by_cases h1 : (¬ kv.2.isUndefined = true ∧ ¬ kv.2.isNull = true)
    · rw [if_pos h1]
      by_cases h2 : ¬ excluded_keys.contains kv.1 = true
      · rw [if_pos h2, if_pos ⟨h1.1, h1.2, h2⟩]
        rw [ih (e.setAttribute kv.1 (jsToString kv.2)) hnd ?disj]
        · rw [Elem.attrs_setAttribute, alistSet_of_get_none _ _ _ hke,
            List.append_assoc, List.singleton_append]
        case disj =>
          intro k hkmem
          rw [Elem.attrs_setAttribute, alistSet_of_get_none _ _ _ hke,
            alistGet_append_right _ _ _ (hdisj k (by simp [hkmem]))]
          have hne : kv.1 ≠ k := fun hh => hk (hh ▸ hkmem)
          simp [alistGet_cons, alistGet, hne]
      · rw [if_neg h2, if_neg (fun hc => h2 hc.2.2)]
        exact ih e hnd (fun k hkmem => hdisj k (by simp [hkmem]))
    · rw [if_neg h1, if_neg (fun hc => h1 ⟨hc.1, hc.2.1⟩)]
      exact ih e hnd (fun k hkmem => hdisj k (by simp [hkmem]))

/-- A successful run of the `try` body yields a node whose attribute map is
exactly the non-reserved, non-`undefined`/`null` entries of the
description. -/
theorem ceBody_attrs (recur : Value → Option Elem → Except JSError (Option Value))
    (info : Value) (parent : Option Elem) (e : Elem)
    (hnd : ((jsEntries info).map Prod.fst).Nodup)
    (h : ceBody recur info parent = .ok e) :
    e.attrs = (jsEntries info).filterMap (fun kv =>
      if ¬ kv.2.isUndefined = true ∧ ¬ kv.2.isNull = true ∧ ¬ excluded_keys.contains kv.1 = true
      then some (kv.1, jsToString kv.2) else none) := by
  unfold ceBody at h
  split at h
  · exact absurd h (by simp)
  · rename_i tag htag
    split at h
    · exact absurd h (by simp)
    · rename_i e0 he0
      dsimp only at h
      split at h
      · exact absurd h (by simp)
      · rename_i e5 h5
        split at h
        · exact absurd h (by simp)
        · rename_i e6 h6
          have hee : e = e6 := applyCallback_eq e6 info e h
          have h0 : e0.attrs = [] := by
            unfold documentCreateElement at he0
            split at he0
            · injection he0 with he0
              rw [← he0]
              rfl
            · exact absurd he0 (by simp)
          have h2attrs : (applyHtml (applyText e0 info) info).attrs = [] := by
            rw [attrs_applyHtml, attrs_applyText, h0]
          rw [hee, applyEvents_attrs e5 info e6 h6, applyContent_attrs recur info _ e5 h5,
            attrs_applyProps,
            setAttributes_attrs (jsEntries info) _ hnd
              (fun k _ => by rw [h2attrs]; rfl),
            h2attrs, List.nil_append]

/-- Claim C6: for a description that reaches the attribute-application step
and builds successfully, exactly the fields outside the seven reserved
structural names whose value is neither `undefined` nor `null` are applied
as literal attributes — in particular a description carrying reserved keys
only yields a node with no attributes at all. -/
theorem claim_C6_attributes (fuel : Nat) (fields : List (String × Value))
    (parent : Option Elem) (e : Elem)
    (hnd : (fields.map Prod.fst).Nodup)
    (he : jsTruthy (getProp (Value.obj fields) "element") = false)
    (hs : jsTruthy (getProp (Value.obj fields) "svg") = false)
    (hok : createElement (fuel + 1) (Value.obj fields) parent = .ok (some (.elem e))) :
    e.attrs = fields.filterMap (fun kv =>
      if ¬ kv.2.isUndefined = true ∧ ¬ kv.2.isNull = true ∧ ¬ excluded_keys.contains kv.1 = true
      then some (kv.1, jsToString kv.2) else none) ∧
    ((∀ kv ∈ fields, kv.1 ∈ excluded_keys) → e.attrs = []) := by
  have hok2 : ceStep (createElement fuel) (Value.obj fields) parent =
      .ok (some (.elem e)) := hok
  unfold ceStep at hok2
  split at hok2
  · exact absurd hok2 (by simp)
  · rw [if_neg (by rw [he]; simp), if_neg (by rw [hs]; simp)] at hok2
    split at hok2
    · rename_i e6 h6
      have he6 : Value.elem e6 = Value.elem e := by
        injection hok2 with hh
        injection hh
      have hee : e6 = e := by injection he6
      have hmain := ceBody_attrs (createElement fuel) (Value.obj fields) parent e6 hnd h6
      rw [hee] at hmain
      refine ⟨hmain, ?_⟩
      intro hall
      rw [hmain, List.filterMap_eq_nil_iff]
      intro kv hkv
      have hmem : excluded_keys.contains kv.1 = true :=
        List.elem_eq_true_of_mem (hall kv hkv)
      exact if_neg (fun hc => hc.2.2 hmem)
    · exact absurd hok2 (by simp)

/-- Witness for claim C6 at two concrete descriptions: one carrying an `id`
attribute and a null-valued `title` next to reserved keys, one carrying
reserved keys only. -/
theorem claim_C6_witness :
    (Elem.mk "DIV" "hi" "" [("id", "x")] [] [] []).attrs = [("id", "x")] ∧
    (Elem.mk "DIV" "" "" [] [] [] []).attrs = [] := by
  constructor
  · have h := (claim_C6_attributes 0
      [("tag", .str "div"), ("id", .str "x"), ("title", Value.null), ("text", .str "hi")]
      none (Elem.mk "DIV" "hi" "" [("id", "x")] [] [] [])
      (by decide) rfl rfl rfl).1
    exact h.trans rfl
  · exact (claim_C6_attributes 0 [("tag", .str "div"), ("callback", Value.fn false)]
      none (Elem.mk "DIV" "" "" [] [] [] [])
      (by decide) rfl rfl rfl).2
      (by
        intro kv hkv
        rcases List.mem_cons.mp hkv with rfl | hkv
        · decide
        · rcases List.mem_cons.mp hkv with rfl | hkv
          · decide
          · exact absurd hkv (by simp))

/-- The element a recursive child build contributes: `some` exactly when the
recursive `createElement` call returns a node. -/
def kidOf (r : Except JSError (Option Value)) : Option Elem :=
  match r with
  | .ok (some (.elem c)) => some c
  | _ => none

/-- The builder consults its parent argument only through the parent's tag
name. -/
theorem createElement_parent_tagName (fuel : Nat) (info : Value) (p q : Elem)
    (h : p.tagName = q.tagName) :
    createElement fuel info (some p) = createElement fuel info (some q) := by
  cases fuel with
  | zero => rfl
  | succ n =>
    show ceStep (createElement n) info (some p) = ceStep (createElement n) info (some q)
    have hdt : determineTag info (some p) = determineTag info (some q) := by
      unfold determineTag
      dsimp only
      rw [h]
    have hbody : ceBody (createElement n) info (some p) =
        ceBody (createElement n) info (some q) := by
      unfold ceBody
      rw [hdt]
    unfold ceStep
    rw [hbody]

/-- Claim C7: the child loop builds each content item recursively with the
node under construction as parent and appends the non-null results in
sequence order — null children are skipped silently; when every child
builds to a node, exactly `N` children are appended, in the given order. -/
theorem claim_C7_children (fuel : Nat) (items : List Value) (e0 res : Elem)
    (h : buildKids (createElement fuel) items e0 = .ok res) :
    res.children = e0.children ++
      items.filterMap (fun item => kidOf (createElement fuel item (some e0))) ∧
    ((∀ item ∈ items, (kidOf (createElement fuel item (some e0))).isSome = true) →
      res.children.length = e0.children.length + items.length) := by
  have main : res.children = e0.children ++
      items.filterMap (fun item => kidOf (createElement fuel item (some e0))) := by
    induction items generalizing e0 with
    | nil =>
      simp [buildKids] at h
      rw [h]
      simp
    | cons item rest ih =>
      unfold buildKids at h
      split at h
      · exact absurd h (by simp)
      · rename_i heq
        rw [List.filterMap_cons]
        rw [show kidOf (createElement fuel item (some e0)) = none by rw [heq]; rfl]
        exact ih e0 h
      · rename_i c heq
        have hfun : (fun it => kidOf (createElement fuel it (some (e0.appendChild c)))) =
            (fun it => kidOf (createElement fuel it (some e0))) :=
          funext (fun it => by
            rw [createElement_parent_tagName fuel it _ _ (Elem.tagName_appendChild e0 c)])
        have := ih (e0.appendChild c) h
        rw [hfun, Elem.children_appendChild] at this
        rw [this, List.filterMap_cons]
        rw [show kidOf (createElement fuel item (some e0)) = some c by rw [heq]; rfl]
        simp
      · exact absurd h (by simp)
  refine ⟨main, ?_⟩
  intro hall
  have hlen : ∀ (l : List Value),
      (∀ item ∈ l, (kidOf (createElement fuel item (some e0))).isSome = true) →
      (l.filterMap (fun item => kidOf (createElement fuel item (some e0)))).length =
        l.length := by
    intro l
    induction l with
    | nil => simp
    | cons a as ihl =>
      intro hl
      rw [List.filterMap_cons]
      cases hk : kidOf (createElement fuel a (some e0)) with
      | none => exact absurd (hl a (by simp)) (by rw [hk]; simp)
      | some c => simp [ihl (fun i hi => hl i (by simp [hi]))]
  rw [main, List.length_append, hlen items hall]

/-- Witness for claim C7 at a concrete three-item content sequence whose
middle item builds to null. -/
theorem claim_C7_witness :
    (Elem.mk "UL" "" "" [] []
        [Elem.mk "LI" "a" "" [] [] [] [], Elem.mk "LI" "b" "" [] [] [] []] []).children =
      (Elem.mk "UL" "" "" [] [] [] []).children ++
        [Value.obj [("text", .str "a")], Value.null, Value.obj [("text", .str "b")]].filterMap
          (fun item => kidOf (createElement 1 item (some (Elem.mk "UL" "" "" [] [] [] [])))) ∧
    ((∀ item ∈ [Value.obj [("text", .str "a")], Value.null, Value.obj [("text", .str "b")]],
        (kidOf (createElement 1 item (some (Elem.mk "UL" "" "" [] [] [] [])))).isSome = true) →
      (Elem.mk "UL" "" "" [] []
        [Elem.mk "LI" "a" "" [] [] [] [], Elem.mk "LI" "b" "" [] [] [] []] []).children.length =
      (Elem.mk "UL" "" "" [] [] [] []).children.length + 3) :=
  claim_C7_children 1
    [Value.obj [("text", .str "a")], Value.null, Value.obj [("text", .str "b")]]
    (Elem.mk "UL" "" "" [] [] [] [])
    (Elem.mk "UL" "" "" [] []
      [Elem.mk "LI" "a" "" [] [] [] [], Elem.mk "LI" "b" "" [] [] [] []] []) rfl

/-- Effect of the handler body on a JSON-object problem: the resulting
fields give `status` the body's truthy status or else the HTTP status, and
`detail` the first truthy of the body's detail, its message, and the
generated string. -/
theorem problemPatch_obj (fields : List (String × Value)) (status : Nat) :
    ∃ fields2, problemPatch (Value.obj fields) status = .ok (.obj fields2) ∧
      getProp (.obj fields2) "status" =
        (if jsTruthy (getProp (.obj fields) "status") then getProp (.obj fields) "status"
         else .num status) ∧
      getProp (.obj fields2) "detail" =
        (if jsTruthy (getProp (.obj fields) "detail") then getProp (.obj fields) "detail"
         else if jsTruthy (getProp (.obj fields) "message") then getProp (.obj fields) "message"
         else .str ("An error occurred: " ++ toString status)) := by
  have hsd : ("status" : String) ≠ "detail" := by decide
  have hsm : ("status" : String) ≠ "message" := by decide
  have hdd : ("detail" : String) ≠ "detail" ↔ False := by simp
  unfold problemPatch
  by_cases hs : jsTruthy (getProp (Value.obj fields) "status") = true
  · rw [if_neg (fun hc => hc hs)]
    dsimp only
    by_cases hd : jsTruthy (getProp (Value.obj fields) "detail") = true
    · rw [if_neg (fun hc => hc hd)]
      dsimp only
      rw [if_neg (fun hc => hc hd)]
      exact ⟨fields, rfl, by rw [if_pos hs], by rw [if_pos hd]⟩
    · rw [if_pos hd]
      dsimp only [jsSetProp]
      rw [getProp_objSet]
      by_cases hm : jsTruthy (getProp (Value.obj fields) "message") = true
      · rw [if_neg (fun hc => hc hm)]
        refine ⟨_, rfl, ?_, ?_⟩
        · rw [getProp_objSet_ne _ _ _ _ (fun hh => hsd hh.symm), if_pos hs]
        · rw [getProp_objSet, if_neg hd, if_pos hm]
      · rw [if_pos hm]
        refine ⟨_, rfl, ?_, ?_⟩
        · rw [getProp_objSet_ne _ _ _ _ (fun hh => hsd hh.symm),
            getProp_objSet_ne _ _ _ _ (fun hh => hsd hh.symm), if_pos hs]
        · rw [getProp_objSet, if_neg hd, if_neg hm]
  · rw [if_pos hs]
    dsimp only [jsSetProp]
    rw [getProp_objSet_ne _ _ _ _ hsd, getProp_objSet_ne _ _ _ _ hsm]
    by_cases hd : jsTruthy (getProp (Value.obj fields) "detail") = true
    · rw [if_neg (fun hc => hc hd)]
      dsimp only
      rw [getProp_objSet_ne _ _ _ _ hsd]
      rw [if_neg (fun hc => hc hd)]
      refine ⟨_, rfl, ?_, ?_⟩
      · rw [getProp_objSet, if_neg hs]
      · rw [getProp_objSet_ne _ _ _ _ hsd, if_pos hd]
    · rw [if_pos hd]
      dsimp only [jsSetProp]
      rw [getProp_objSet]
      by_cases hm : jsTruthy (getProp (Value.obj fields) "message") = true
      · rw [if_neg (fun hc => hc hm)]
        refine ⟨_, rfl, ?_, ?_⟩
        · rw [getProp_objSet_ne _ _ _ _ (fun hh => hsd hh.symm), getProp_objSet, if_neg hs]
        · rw [getProp_objSet, if_neg hd, if_pos hm]
      · rw [if_pos hm]
        refine ⟨_, rfl, ?_, ?_⟩
        · rw [getProp_objSet_ne _ _ _ _ (fun hh => hsd hh.symm),
            getProp_objSet_ne _ _ _ _ (fun hh => hsd hh.symm), getProp_objSet, if_neg hs]
        · rw [getProp_objSet, if_neg hd, if_neg hm]

/-- Counterexample to claim C2 as stated: a 404 response whose body carries
the *present* field `status: 0` does not keep that status — the falsy check
replaces it with the HTTP status, so the resulting problem's status is 404
although the body's status field was 0. -/
theorem claim_C2_counterexample :
    getProp (Value.obj [("status", .num 0), ("detail", .str "x")]) "status" = .num 0 ∧
    getProp ((getProblemDetail
        { ok := false, status := 404,
          jsonBody := some (.obj [("status", .num 0), ("detail", .str "x")]) }).json ())
      "status" = .num 404 ∧
    Value.num 404 ≠ Value.num 0 := by
  refine ⟨rfl, rfl, ?_⟩
  intro h
  injection h with h
  exact absurd h (by decide)

/-- Claim C2, amended: for a non-success response whose body parses as a
JSON object, the problem's status is the body's status field when truthy
(present and non-zero), otherwise the HTTP status; its detail is the body's
detail field when truthy, else its message field when truthy, else the
generated `"An error occurred: {status}"` string.  For a body that does not
parse as JSON, the problem carries the HTTP status and the generated
string.  In particular a 404 with body `{"message": "not found"}` yields
status 404 and detail `"not found"`. -/
theorem claim_C2_amended :
    (∀ (endpoint : String) (method : Option String) (payload : Option Value)
        (formData : Option FormData) (net : String → RequestInit → TransportOutcome)
        (r : NativeResponse) (fields : List (String × Value)),
      net endpoint (buildInit method payload formData) = .response r →
      r.ok = false →
      r.jsonBody = some (.obj fields) →
      _fetch endpoint method payload formData net = .problemResp (getProblemDetail r) ∧
      (getProblemDetail r).ok = false ∧
      getProp ((getProblemDetail r).json ()) "status" =
        (if jsTruthy (getProp (.obj fields) "status") then getProp (.obj fields) "status"
         else .num r.status) ∧
      getProp ((getProblemDetail r).json ()) "detail" =
        (if jsTruthy (getProp (.obj fields) "detail") then getProp (.obj fields) "detail"
         else if jsTruthy (getProp (.obj fields) "message") then getProp (.obj fields) "message"
         else .str ("An error occurred: " ++ toString r.status))) ∧
    (∀ (endpoint : String) (method : Option String) (payload : Option Value)
        (formData : Option FormData) (net : String → RequestInit → TransportOutcome)
        (r : NativeResponse),
      net endpoint (buildInit method payload formData) = .response r →
      r.ok = false →
      r.jsonBody = none →
      _fetch endpoint method payload formData net =
        .problemResp (asFetchResponse (defaultProblem r.status)) ∧
      getProp ((asFetchResponse (defaultProblem r.status)).json ()) "status" =
        .num r.status ∧
      getProp ((asFetchResponse (defaultProblem r.status)).json ()) "detail" =
        .str ("An error occurred: " ++ toString r.status)) := by
  constructor
  · intro endpoint method payload formData net r fields hnet hok hbody
    have hfetch : _fetch endpoint method payload formData net =
        .problemResp (getProblemDetail r) := by
      unfold _fetch
      dsimp only
      rw [hnet]
      simp [hok]
    obtain ⟨fields2, hpp, hst, hdt⟩ := problemPatch_obj fields r.status
    have hgpd : getProblemDetail r = asFetchResponse (.obj fields2) := by
      unfold getProblemDetail
      rw [hbody]
      dsimp only
      rw [hpp]
    refine ⟨hfetch, ?_, ?_, ?_⟩
    · rw [hgpd]; rfl
    · rw [hgpd]; exact hst
    · rw [hgpd]; exact hdt
  · intro endpoint method payload formData net r hnet hok hbody
    have hfetch : _fetch endpoint method payload formData net =
        .problemResp (getProblemDetail r) := by
      unfold _fetch
      dsimp only
      rw [hnet]
      simp [hok]
    have hgpd : getProblemDetail r = asFetchResponse (defaultProblem r.status) := by
      unfold getProblemDetail
      rw [hbody]
    refine ⟨by rw [hfetch, hgpd], ?_, ?_⟩
    · rfl
    · rfl

/-- Witness for the amended claim C2: a 404 with body
`{"message": "not found"}` yields status 404 and detail `"not found"`, and
a 500 with a non-JSON body yields the default problem. -/
theorem claim_C2_witness :
    getProp ((getProblemDetail
        { ok := false, status := 404,
          jsonBody := some (.obj [("message", .str "not found")]) }).json ())
      "status" = .num 404 ∧
    getProp ((getProblemDetail
        { ok := false, status := 404,
          jsonBody := some (.obj [("message", .str "not found")]) }).json ())
      "detail" = .str "not found" ∧
    _fetch "https://example.org" none none none
        (fun _ _ => .response { ok := false, status := 500, jsonBody := none }) =
      .problemResp (asFetchResponse (defaultProblem 500)) := by
  obtain ⟨-, -, hst, hdt⟩ := claim_C2_amended.1 "https://example.org" none none none
    (fun _ _ =>
      TransportOutcome.response
        ⟨false, 404, some (.obj [("message", .str "not found")])⟩)
    ⟨false, 404, some (.obj [("message", .str "not found")])⟩
    [("message", .str "not found")] rfl rfl rfl
  obtain ⟨hf, -, -⟩ := claim_C2_amended.2 "https://example.org" none none none
    (fun _ _ => .response { ok := false, status := 500, jsonBody := none })
    { ok := false, status := 500, jsonBody := none } rfl rfl rfl
  exact ⟨hst.trans rfl, hdt.trans rfl, hf⟩

end Spart
